import Mathlib

/-!
Verification of the tdnf metalink plugin (`src/plugins/metalink/utils.c`).

A shallow embedding of the metalink parsing and hash-verification code of
tdnf, together with theorems checking the natural-language specification
against it.

Conventions of the embedding:
* C strings become `String`; `NULL` string fields become `Option String`.
* C status codes (`uint32_t dwError`) become `Nat`; `0` is success.  The
  exact numeric values of the `ERROR_TDNF_*` constants live in a header
  that is not part of this file's source; only their distinctness and
  being nonzero matter, so they are fixed here as arbitrary distinct
  nonzero numbers.
* Memory allocation is modelled as always succeeding, and out-of-memory
  error paths are dropped.
* File I/O and the OpenSSL digest engine are abstracted by an oracle
  `DigestOracle` giving, for each supported algorithm, either the raw
  digest of the target file or the error code `TDNFGetDigestForFile`
  would return.
-/

set_option autoImplicit false

deriving instance DecidableEq for Except

namespace Metalink

/-! Section: Error codes (abstract distinct nonzero values) -/

def ERROR_TDNF_INVALID_PARAMETER : Nat := 999
def ERROR_TDNF_INVALID_REPO_FILE : Nat := 1015
def ERROR_TDNF_CHECKSUM_VALIDATION_FAILED : Nat := 1528
def ERROR_TDNF_FIPS_MODE_FORBIDDEN : Nat := 1539
def ERROR_TDNF_METALINK_PARSER_MISSING_FILE_ATTR : Nat := 1031
def ERROR_TDNF_METALINK_PARSER_INVALID_FILE_NAME : Nat := 1032
def ERROR_TDNF_METALINK_PARSER_MISSING_FILE_SIZE : Nat := 1033
def ERROR_TDNF_METALINK_PARSER_MISSING_HASH_ATTR : Nat := 1034
def ERROR_TDNF_METALINK_PARSER_MISSING_HASH_CONTENT : Nat := 1035
def ERROR_TDNF_METALINK_PARSER_MISSING_URL_ATTR : Nat := 1036
def ERROR_TDNF_METALINK_PARSER_MISSING_URL_CONTENT : Nat := 1037

/-! Section: Hash registry

`hash_ops` maps the rank (the `TDNF_HASH_*` enum ordinal: MD5 = 0,
SHA1 = 1, SHA256 = 2, SHA512 = 3, SENTINEL = 4) to the raw digest
length; `hashType` is the name → ordinal table searched by
`TDNFGetResourceType`.  The C code sorts `hashType` once with `qsort`
and looks names up with `bsearch` under `strcmp`; since the keys are
pairwise distinct this is extensionally a plain association-list
lookup, which is how it is embedded. -/

def TDNF_HASH_SENTINEL : Nat := 4

/-- Digest byte length per rank, from the `hash_ops` table
(MD5 16, SHA1 20, SHA256 32, SHA512 64). -/
def hash_ops_length (t : Nat) : Nat :=
  match t with
  | 0 => 16
  | 1 => 20
  | 2 => 32
  | 3 => 64
  | _ => 0

/-- The `hashType` name table with its `TDNF_HASH_*` ordinal values. -/
def hashType : List (String × Int) :=
  [("md5", 0), ("sha1", 1), ("sha-1", 1), ("sha256", 2), ("sha-256", 2),
   ("sha512", 3), ("sha-512", 3)]

/-- Embedding of `TDNFGetResourceType`: resolve an algorithm name to its rank.
A null/empty name is `ERROR_TDNF_INVALID_PARAMETER`; a name absent from
the table yields the sentinel `-1` with success status. -/
def TDNFGetResourceType (resource_type : String) : Except Nat Int :=
  if resource_type = "" then
    Except.error ERROR_TDNF_INVALID_PARAMETER
  else
    match hashType.find? (fun p => p.1 = resource_type) with
    | none => Except.ok (-1)
    | some p => Except.ok p.2

/-! Section: Hex codec -/

/-- Embedding of `isxdigit` on ASCII. -/
def isxdigit (c : Char) : Bool :=
  (('0' ≤ c ∧ c ≤ '9') ∨ ('a' ≤ c ∧ c ≤ 'f') ∨ ('A' ≤ c ∧ c ≤ 'F') : Prop)

/-- Numeric value of a hex digit (0 on non-digits, as `strtoul` would
never consume such a character). -/
def hexVal (c : Char) : Nat :=
  if '0' ≤ c ∧ c ≤ '9' then c.toNat - 48
  else if 'a' ≤ c ∧ c ≤ 'f' then c.toNat - 87
  else if 'A' ≤ c ∧ c ≤ 'F' then c.toNat - 55
  else 0

/-- Embedding of `TDNFCheckHexDigest`: nonzero iff the string is nonempty, the
expected length is positive, every character is a hex digit and the
string length equals `digest_length * 2`.  The C routine walks the
string, bailing out at the first non-digit, then compares the final
index with `digest_length * 2`; that is extensionally `all` plus the
length comparison. -/
def TDNFCheckHexDigest (hex_digest : String) (digest_length : Int) : Bool :=
  if hex_digest = "" ∨ digest_length ≤ 0 then
    false
  else
    hex_digest.data.all isxdigit && (digest_length * 2 == (hex_digest.length : Int))

/-- Embedding of `TDNFHexToUint` copies two characters into a buffer `{c0, c1, 0}`
and applies `strtoul(buf, NULL, 16)`.  On the all-hex strings this code
receives, that is `16 * hexVal c0 + hexVal c1` when both characters are
digits, the single digit when only the first is (the second is then the
terminating NUL of an odd-length input), and `0` otherwise. -/
def TDNFHexToUint (c0 c1 : Char) : Nat :=
  if isxdigit c0 then
    if isxdigit c1 then 16 * hexVal c0 + hexVal c1 else hexVal c0
  else 0

/-- The pair loop of `TDNFChecksumFromHexDigest`: bytes from successive
character pairs.  For an odd-length input the final half pair is not
part of the `memcpy`ed output (`len >> 1` bytes), so it is dropped. -/
def decodePairs : List Char → List Nat
  | c0 :: c1 :: rest => TDNFHexToUint c0 c1 :: decodePairs rest
  | _ => []

/-- Embedding of `TDNFChecksumFromHexDigest`: a null/empty string is
`ERROR_TDNF_INVALID_PARAMETER`; otherwise decode character pairs to
bytes.  (`strtoul` cannot set `errno` on a two-character buffer and
allocation is modelled as succeeding, so no other error path remains.) -/
def TDNFChecksumFromHexDigest (hex_digest : String) : Except Nat (List Nat) :=
  if hex_digest = "" then Except.error ERROR_TDNF_INVALID_PARAMETER
  else Except.ok (decodePairs hex_digest.data)

/-- Specification-side hex encoding: two lowercase hex characters per
byte, used to state the `decode ∘ encode = id` round-trip property. -/
def hexDigitChar (n : Nat) : Char :=
  if n < 10 then Char.ofNat (48 + n) else Char.ofNat (87 + n)

def encodeHexChars (bytes : List Nat) : List Char :=
  (bytes.map (fun b => [hexDigitChar (b / 16), hexDigitChar (b % 16)])).flatten

def encodeHex (bytes : List Nat) : String :=
  String.mk (encodeHexChars bytes)

/-! Section: Metalink model -/

/-- Embedding of `TDNF_ML_HASH_INFO`: one `hash` element. -/
structure TDNF_ML_HASH_INFO where
  type : String
  value : String
deriving Repr, DecidableEq

/-- Embedding of `TDNF_ML_URL_INFO`: one `url` element.  Fields start out as the
zeroed allocation (`NULL` pointers, preference `0`). -/
structure TDNF_ML_URL_INFO where
  protocol : Option String := none
  type : Option String := none
  location : Option String := none
  preference : Int := 0
  url : Option String := none
deriving Repr, DecidableEq

/-- Embedding of `TDNF_ML_CTX`: the metalink model built by the parser. -/
structure TDNF_ML_CTX where
  filename : Option String := none
  size : Int := 0
  hashes : List TDNF_ML_HASH_INFO := []
  urls : List TDNF_ML_URL_INFO := []
deriving Repr, DecidableEq

/-! Section: Digest engine abstraction

`TDNFGetDigestForFile` opens the target file and streams it through the
named digest algorithm.  The file and the engine are external to this
code, so they are abstracted by an oracle: for rank `t` it gives either
the raw digest bytes of the actual file or the error code the digest
routine would return (open/read `errno`, `ERROR_TDNF_INVALID_PARAMETER`,
`ERROR_TDNF_CHECKSUM_VALIDATION_FAILED` on engine failure, or
`ERROR_TDNF_FIPS_MODE_FORBIDDEN`). -/

def DigestOracle : Type := Nat → Except Nat (List Nat)

/-- Embedding of `memcmp(a, b, n) == 0` on digest buffers: the C buffers are
zero-initialised and at least `n` bytes long, so both lists are read
zero-extended to `n` bytes. -/
def memcmpEq (n : Nat) (a b : List Nat) : Bool :=
  (List.range n).all (fun i => a.getD i 0 == b.getD i 0)

/-- Embedding of `TDNFCheckHash`: bounds-check the rank, compute the file digest and
compare `hash_ops[type].length` bytes; a mismatch is
`ERROR_TDNF_CHECKSUM_VALIDATION_FAILED`. -/
def TDNFCheckHash (oracle : DigestOracle) (digest : List Nat) (t : Int) : Nat :=
  if t < 0 ∨ (TDNF_HASH_SENTINEL : Int) ≤ t then ERROR_TDNF_INVALID_PARAMETER
  else
    match oracle t.toNat with
    | Except.error e => e
    | Except.ok digest_from_file =>
        if memcmpEq (hash_ops_length t.toNat) digest_from_file digest then 0
        else ERROR_TDNF_CHECKSUM_VALIDATION_FAILED

/-- First pass of `TDNFCheckRepoMDFileHashFromMetalink`: resolve every
declaration's type, maximising over the ranks, starting from the
initial `hash_Type = -1`.  A resolution failure bails out. -/
def selectBestHashType : List TDNF_ML_HASH_INFO → Int → Except Nat Int
  | [], best => Except.ok best
  | h :: rest, best =>
    match TDNFGetResourceType h.type with
    | Except.error e => Except.error e
    | Except.ok r => selectBestHashType rest (if best < r then r else best)

/-- Second pass of `TDNFCheckRepoMDFileHashFromMetalink`.  `dwError` is
the running status variable: each iteration overwrites it with the
(successful) `TDNFGetResourceType` status, and the value carried out of
the final iteration is what the function returns when the loop runs
out.  A best-rank candidate with valid hex is decoded and checked
against the file; success breaks out, a checksum mismatch carries
`ERROR_TDNF_CHECKSUM_VALIDATION_FAILED` into the next iteration, and
any other failure bails out. -/
def checkHashLoop (oracle : DigestOracle) (best : Int) :
    List TDNF_ML_HASH_INFO → Nat → Nat
  | [], dwError => dwError
  | h :: rest, _ =>
    match TDNFGetResourceType h.type with
    | Except.error e => e
    | Except.ok r =>
      if best = r ∧ TDNFCheckHexDigest h.value ((hash_ops_length r.toNat : Nat) : Int) then
        match TDNFChecksumFromHexDigest h.value with
        | Except.error e => e
        | Except.ok digest =>
          let e := TDNFCheckHash oracle digest best
          if e ≠ 0 ∧ e ≠ ERROR_TDNF_CHECKSUM_VALIDATION_FAILED then e
          else if e = 0 then 0
          else checkHashLoop oracle best rest e
      else checkHashLoop oracle best rest 0

/-- Embedding of `TDNFCheckRepoMDFileHashFromMetalink`: select the best available
rank, fail with `ERROR_TDNF_INVALID_REPO_FILE` when none resolves, then
test best-rank candidates until one succeeds or the list runs out. -/
def TDNFCheckRepoMDFileHashFromMetalink (oracle : DigestOracle)
    (hashes : List TDNF_ML_HASH_INFO) : Nat :=
  match selectBestHashType hashes (-1) with
  | Except.error e => e
  | Except.ok hash_Type =>
    if hash_Type < 0 then ERROR_TDNF_INVALID_REPO_FILE
    else checkHashLoop oracle hash_Type hashes 0

/-! Section: sscanf model

`sscanf(s, "%d", ...)` / `sscanf(s, "%ld", ...)` succeed iff, after
optional whitespace and an optional sign, at least one decimal digit
follows; the value is the signed digit run (trailing text is ignored,
overflow is not modelled — the value is an unbounded `Int`). -/

def isCSpace (c : Char) : Bool :=
  c = ' ' ∨ c = '\t' ∨ c = '\n' ∨ c = '\x0b' ∨ c = '\x0c' ∨ c = '\r'

def natOfDigits (l : List Char) : Nat :=
  l.foldl (fun a c => 10 * a + (c.toNat - 48)) 0

def sscanfIntAux (l : List Char) : Option Int :=
  let l1 := l.dropWhile isCSpace
  match l1 with
  | '-' :: rest =>
    if rest.takeWhile Char.isDigit = [] then none
    else some (-(natOfDigits (rest.takeWhile Char.isDigit) : Int))
  | '+' :: rest =>
    if rest.takeWhile Char.isDigit = [] then none
    else some ((natOfDigits (rest.takeWhile Char.isDigit) : Int))
  | rest =>
    if rest.takeWhile Char.isDigit = [] then none
    else some ((natOfDigits (rest.takeWhile Char.isDigit) : Int))

def sscanfInt (s : String) : Option Int :=
  sscanfIntAux s.data

/-! Section: Parser state machine

The expat handlers share one `struct MetalinkElementInfo`; attribute
arrays are the flat name/value pairs delivered with the most recent
start-element event.  `MIN_URL_LENGTH` guards the `url` dispatch on the
byte length of the character data. -/

def MIN_URL_LENGTH : Nat := 4

/-- Embedding of `TDNFSearchTag`: first attribute with the wanted name. -/
def TDNFSearchTag (attrs : List (String × String)) (ty : String) : Option String :=
  (attrs.find? (fun p => p.1 = ty)).map Prod.snd

/-- Embedding of `struct MetalinkElementInfo` together with the `TDNF_ML_CTX` it
points at.  `startElement`/`endElement` start out as `NULL`. -/
structure MetalinkElementInfo where
  dwError : Nat := 0
  startElement : Option String := none
  endElement : Option String := none
  attributes : List (String × String) := []
  ml_ctx : TDNF_ML_CTX := {}
deriving Repr, DecidableEq

/-- Embedding of `TDNFParseFileTag`: require the `name` attribute and that it equals
the expected filename; on success it becomes the model's filename. -/
def TDNFParseFileTag (attrs : List (String × String)) (filename : String) :
    Except Nat String :=
  match TDNFSearchTag attrs "name" with
  | none => Except.error ERROR_TDNF_METALINK_PARSER_MISSING_FILE_ATTR
  | some name =>
    if name ≠ filename then Except.error ERROR_TDNF_METALINK_PARSER_INVALID_FILE_NAME
    else Except.ok name

/-- Embedding of `TDNFParseHashTag`: require the `type` attribute, copy the character
content as the value, and produce the declaration to append.  (The
`ERROR_TDNF_METALINK_PARSER_MISSING_HASH_CONTENT` branch fires only
when the tokenizer hands a `NULL` text pointer or allocation fails,
neither of which is representable here.)  On any error the partially
built `TDNF_ML_HASH_INFO` is freed, not returned. -/
def TDNFParseHashTag (attrs : List (String × String)) (val : String) :
    Except Nat TDNF_ML_HASH_INFO :=
  match TDNFSearchTag attrs "type" with
  | none => Except.error ERROR_TDNF_METALINK_PARSER_MISSING_HASH_ATTR
  | some t => Except.ok { type := t, value := val }

/-- The attribute loop of `TDNFParseUrlTag`: `protocol`, `type` and
`location` are copied opportunistically; `preference` must parse via
`sscanf "%d"` (`ERROR_TDNF_INVALID_PARAMETER` otherwise) and lie in
`[0, 100]` (`ERROR_TDNF_METALINK_PARSER_MISSING_URL_ATTR` otherwise). -/
def processUrlAttrs : List (String × String) → TDNF_ML_URL_INFO →
    Except Nat TDNF_ML_URL_INFO
  | [], info => Except.ok info
  | (k, v) :: rest, info =>
    if k = "protocol" then processUrlAttrs rest { info with protocol := some v }
    else if k = "type" then processUrlAttrs rest { info with type := some v }
    else if k = "location" then processUrlAttrs rest { info with location := some v }
    else if k = "preference" then
      match sscanfInt v with
      | none => Except.error ERROR_TDNF_INVALID_PARAMETER
      | some prefValue =>
        if prefValue < 0 ∨ 100 < prefValue then
          Except.error ERROR_TDNF_METALINK_PARSER_MISSING_URL_ATTR
        else processUrlAttrs rest { info with preference := prefValue }
    else processUrlAttrs rest info

/-- Embedding of `TDNFParseUrlTag`: process the attributes, then copy the character
content as the mirror URL and produce the declaration to append.  (As
with the hash tag, the missing-content branch is unreachable here.)  On
any error the partially built `TDNF_ML_URL_INFO` is freed, not
returned. -/
def TDNFParseUrlTag (attrs : List (String × String)) (val : String) :
    Except Nat TDNF_ML_URL_INFO :=
  match processUrlAttrs attrs {} with
  | Except.error e => Except.error e
  | Except.ok info => Except.ok { info with url := some val }

/-- Embedding of `TDNFXmlParseStartElement`: a no-op once an error is latched;
otherwise record the element name and its attributes. -/
def TDNFXmlParseStartElement (st : MetalinkElementInfo) (name : String)
    (attrs : List (String × String)) : MetalinkElementInfo :=
  if st.dwError ≠ 0 then st
  else { st with startElement := some name, attributes := attrs }

/-- Embedding of `TDNFXmlParseData`: the guard clause covers bad arguments *and* an
already-latched error, and in every such case assigns
`ERROR_TDNF_INVALID_PARAMETER` to `dwError` before bailing out.
Otherwise dispatch on the currently open element.  A character-data
event with no preceding start element dereferences a `NULL`
`startElement` in the C (undefined behaviour, unreachable under a real
tokenizer); it is modelled as a no-op. -/
def TDNFXmlParseData (filename : String) (st : MetalinkElementInfo)
    (val : String) : MetalinkElementInfo :=
  if filename = "" ∨ st.dwError ≠ 0 then
    { st with dwError := ERROR_TDNF_INVALID_PARAMETER }
  else
    match st.startElement with
    | none => st
    | some el =>
      if el = "file" then
        match TDNFParseFileTag st.attributes filename with
        | Except.error e => { st with dwError := e }
        | Except.ok name =>
            { st with ml_ctx := { st.ml_ctx with filename := some name } }
      else if el = "size" then
        match sscanfInt val with
        | none => { st with dwError := ERROR_TDNF_INVALID_PARAMETER }
        | some sz => { st with ml_ctx := { st.ml_ctx with size := sz } }
      else if el = "hash" then
        match TDNFParseHashTag st.attributes val with
        | Except.error e => { st with dwError := e }
        | Except.ok h =>
            { st with ml_ctx := { st.ml_ctx with hashes := st.ml_ctx.hashes ++ [h] } }
      else if el = "url" ∧ MIN_URL_LENGTH < val.utf8ByteSize then
        match TDNFParseUrlTag st.attributes val with
        | Except.error e => { st with dwError := e }
        | Except.ok u =>
            { st with ml_ctx := { st.ml_ctx with urls := st.ml_ctx.urls ++ [u] } }
      else st

/-- Embedding of `TDNFXmlParseEndElement`: record the closing name (done even when an
error is latched), then at most re-raise the latched error — no other
state change. -/
def TDNFXmlParseEndElement (st : MetalinkElementInfo) (name : String) :
    MetalinkElementInfo :=
  { st with endElement := some name }

/-- The three event kinds the tokenizer delivers. -/
inductive XmlEvent where
  | startEl (name : String) (attrs : List (String × String))
  | charData (val : String)
  | endEl (name : String)
deriving Repr, DecidableEq

def xmlStep (filename : String) (st : MetalinkElementInfo) :
    XmlEvent → MetalinkElementInfo
  | XmlEvent.startEl name attrs => TDNFXmlParseStartElement st name attrs
  | XmlEvent.charData val => TDNFXmlParseData filename st val
  | XmlEvent.endEl name => TDNFXmlParseEndElement st name

/-- Run the handlers over an event sequence, as `XML_Parse` does. -/
def xmlRun (filename : String) (st : MetalinkElementInfo)
    (evs : List XmlEvent) : MetalinkElementInfo :=
  evs.foldl (xmlStep filename) st

/-! Section: Helper lemmas -/

/-- Characters produced by `hexDigitChar` below 16 are hex digits with
the expected numeric value. -/
theorem hexDigitChar_spec :
    ∀ n, n < 16 → isxdigit (hexDigitChar n) = true ∧ hexVal (hexDigitChar n) = n := by
  decide

/-- Decoding the two-character encoding of a byte recovers the byte. -/
theorem TDNFHexToUint_encode (b : Nat) (hb : b < 256) :
    TDNFHexToUint (hexDigitChar (b / 16)) (hexDigitChar (b % 16)) = b := by
  obtain ⟨hx1, hv1⟩ := hexDigitChar_spec (b / 16) (by omega)
  obtain ⟨hx2, hv2⟩ := hexDigitChar_spec (b % 16) (by omega)
  unfold TDNFHexToUint
  rw [hx1, hx2]
  simp only [if_true]
  rw [hv1, hv2]
  omega

/-- The pair decoder inverts the byte-list encoder. -/
theorem decodePairs_encode : ∀ (bytes : List Nat), (∀ b ∈ bytes, b < 256) →
    decodePairs (encodeHexChars bytes) = bytes
  | [], _ => rfl
  | b :: bs, hb => by
    have hb' : ∀ x ∈ bs, x < 256 := fun x hx => hb x (List.mem_cons_of_mem _ hx)
    have hbb : b < 256 := hb b (List.mem_cons_self _ _)
    have hstep : encodeHexChars (b :: bs) =
        hexDigitChar (b / 16) :: hexDigitChar (b % 16) :: encodeHexChars bs := rfl
    rw [hstep]
    show TDNFHexToUint (hexDigitChar (b / 16)) (hexDigitChar (b % 16)) ::
        decodePairs (encodeHexChars bs) = b :: bs
    rw [TDNFHexToUint_encode b hbb, decodePairs_encode bs hb']

/-- A string passing the hex check is nonempty. -/
theorem checkHexDigest_ne_empty {v : String} {n : Int}
    (h : TDNFCheckHexDigest v n = true) : v ≠ "" := by
  intro hc
  subst hc
  unfold TDNFCheckHexDigest at h
  rw [if_pos (Or.inl rfl)] at h
  exact absurd h (by decide)

/-- On nonempty input the checksum decoder succeeds with the pair
decoding. -/
theorem checksumFromHex_ok {v : String} (h : v ≠ "") :
    TDNFChecksumFromHexDigest v = Except.ok (decodePairs v.data) := by
  unfold TDNFChecksumFromHexDigest
  rw [if_neg h]

/-- The selection pass keeps its accumulator when every remaining entry
resolves to a rank no larger than it. -/
theorem selectBestHashType_const :
    ∀ (hs : List TDNF_ML_HASH_INFO) (acc : Int),
      (∀ r ∈ hs, ∃ k, TDNFGetResourceType r.type = Except.ok k ∧ k ≤ acc) →
      selectBestHashType hs acc = Except.ok acc
  | [], _, _ => rfl
  | r :: rest, acc, h => by
    obtain ⟨k, hk, hle⟩ := h r (List.mem_cons_self _ _)
    unfold selectBestHashType
    rw [hk]
    show selectBestHashType rest (if acc < k then k else acc) = Except.ok acc
    rw [if_neg (by omega : ¬acc < k)]
    exact selectBestHashType_const rest acc
      (fun x hx => h x (List.mem_cons_of_mem _ hx))

/-- A declaration resolving to the unsupported sentinel contributes
nothing to the selection pass, wherever it stands in the list: the
accumulator (which never drops below its initial `-1`) is unchanged by
the `-1` rank. -/
theorem selectBestHashType_skip_unsupported :
    ∀ (pre : List TDNF_ML_HASH_INFO) (x : TDNF_ML_HASH_INFO)
      (post : List TDNF_ML_HASH_INFO) (acc : Int),
      TDNFGetResourceType x.type = Except.ok (-1) → -1 ≤ acc →
      selectBestHashType (pre ++ x :: post) acc =
        selectBestHashType (pre ++ post) acc
  | [], x, post, acc, hx, hacc => by
    simp only [List.nil_append]
    conv_lhs => unfold selectBestHashType
    rw [hx]
    show selectBestHashType post (if acc < -1 then -1 else acc) =
        selectBestHashType post acc
    rw [if_neg (by omega : ¬acc < -1)]
  | p :: pre, x, post, acc, hx, hacc => by
    simp only [List.cons_append]
    unfold selectBestHashType
    cases hp : TDNFGetResourceType p.type with
    | error e => rfl
    | ok r =>
      show selectBestHashType (pre ++ x :: post) (if acc < r then r else acc) =
          selectBestHashType (pre ++ post) (if acc < r then r else acc)
      apply selectBestHashType_skip_unsupported pre x post _ hx
      by_cases h : acc < r
      · rw [if_pos h]
        omega
      · rw [if_neg h]
        exact hacc

/-- When the selected best rank is supported (nonnegative), the
verification loop skips a declaration resolving to the unsupported
sentinel without any hex check or digest computation, merely resetting
the carried status to the successful resolution's `0`. -/
theorem checkHashLoop_skip_unsupported (oracle : DigestOracle) (best : Int)
    (x : TDNF_ML_HASH_INFO) (rest : List TDNF_ML_HASH_INFO) (e : Nat)
    (hx : TDNFGetResourceType x.type = Except.ok (-1)) (hbest : 0 ≤ best) :
    checkHashLoop oracle best (x :: rest) e = checkHashLoop oracle best rest 0 := by
  have hne : ¬(best = -1) := by omega
  conv_lhs => unfold checkHashLoop
  rw [hx]
  simp [hne]

/-- Once an error is latched, running any further events leaves the
model untouched and the error nonzero: it stays the latched one across
start/end events but becomes `ERROR_TDNF_INVALID_PARAMETER` at the next
character-data event. -/
theorem xmlRun_after_error :
    ∀ (fn : String) (evs : List XmlEvent) (st : MetalinkElementInfo),
      st.dwError ≠ 0 →
      (xmlRun fn st evs).ml_ctx = st.ml_ctx ∧
      ((xmlRun fn st evs).dwError = st.dwError ∨
        (xmlRun fn st evs).dwError = ERROR_TDNF_INVALID_PARAMETER)
  | _, [], _, _ => ⟨rfl, Or.inl rfl⟩
  | fn, ev :: rest, st, h => by
    have hstep : (xmlStep fn st ev).ml_ctx = st.ml_ctx ∧
        ((xmlStep fn st ev).dwError = st.dwError ∨
          (xmlStep fn st ev).dwError = ERROR_TDNF_INVALID_PARAMETER) := by
      cases ev with
      | startEl name attrs =>
        rw [show xmlStep fn st (XmlEvent.startEl name attrs) =
            TDNFXmlParseStartElement st name attrs from rfl]
        unfold TDNFXmlParseStartElement
        rw [if_pos h]
        exact ⟨rfl, Or.inl rfl⟩
      | charData val =>
        rw [show xmlStep fn st (XmlEvent.charData val) =
            TDNFXmlParseData fn st val from rfl]
        unfold TDNFXmlParseData
        rw [if_pos (Or.inr h)]
        exact ⟨rfl, Or.inr rfl⟩
      | endEl name =>
        exact ⟨rfl, Or.inl rfl⟩
    have hne : (xmlStep fn st ev).dwError ≠ 0 := by
      rcases hstep.2 with he | he
      · rw [he]
        exact h
      · rw [he]
        decide
    have hrun : xmlRun fn st (ev :: rest) = xmlRun fn (xmlStep fn st ev) rest := rfl
    rw [hrun]
    obtain ⟨hml, herr2⟩ := xmlRun_after_error fn rest (xmlStep fn st ev) hne
    refine ⟨hml.trans hstep.1, ?_⟩
    rcases herr2 with he | he
    · rcases hstep.2 with hs | hs
      · exact Or.inl (he.trans hs)
      · exact Or.inr (he.trans hs)
    · exact Or.inr he

/-! Section: Theorems about the claims -/

/-- C1 (code-bug evidence): with a weaker-rank `sha1` declaration whose
well-formed hex digest is the actual file digest and a best-rank
`sha256` declaration whose hex value is malformed, the verification
loop skips every entry and falls out carrying the status of the last
successful `TDNFGetResourceType` call: it returns `0` (success) — not
`ERROR_TDNF_CHECKSUM_VALIDATION_FAILED` as specified — and it does so
for every digest oracle, i.e. without ever hashing the file. -/
theorem C1_spurious_success (oracle : DigestOracle) :
    TDNFGetResourceType "sha1" = Except.ok 1 ∧
    TDNFGetResourceType "sha256" = Except.ok 2 ∧
    TDNFCheckHexDigest (String.mk (List.replicate 40 'a')) 20 = true ∧
    TDNFCheckHexDigest "zz" 32 = false ∧
    TDNFCheckRepoMDFileHashFromMetalink oracle
      [{ type := "sha1", value := String.mk (List.replicate 40 'a') },
       { type := "sha256", value := "zz" }] = 0 ∧
    (0 : Nat) ≠ ERROR_TDNF_CHECKSUM_VALIDATION_FAILED :=
  ⟨by decide, by decide, by decide, by decide, rfl, by decide⟩

/-- C2 counterexample: after a hash element with a missing `type`
attribute latches `ERROR_TDNF_METALINK_PARSER_MISSING_HASH_ATTR`, one
more character-data event overwrites the latch with
`ERROR_TDNF_INVALID_PARAMETER`, so the error ultimately reported is a
later one, not the first latched. -/
theorem C2_counterexample :
    (xmlRun "f" {} [XmlEvent.startEl "hash" [], XmlEvent.charData "x"]).dwError
      = ERROR_TDNF_METALINK_PARSER_MISSING_HASH_ATTR ∧
    (xmlRun "f" {}
        [XmlEvent.startEl "hash" [], XmlEvent.charData "x",
         XmlEvent.charData "y"]).dwError = ERROR_TDNF_INVALID_PARAMETER ∧
    ERROR_TDNF_METALINK_PARSER_MISSING_HASH_ATTR ≠ ERROR_TDNF_INVALID_PARAMETER := by
  decide

/-- C2 (amended): once any handler has stored a nonzero error, every
subsequent event leaves the metalink model (filename, size, hashes,
urls) unchanged, and the error stays nonzero — but it is the first
error latched only in the absence of later character-data events, which
replace it with `ERROR_TDNF_INVALID_PARAMETER`. -/
theorem C2_failed_state_frozen (fn : String) (st : MetalinkElementInfo)
    (evs : List XmlEvent) (h : st.dwError ≠ 0) :
    (xmlRun fn st evs).ml_ctx = st.ml_ctx ∧
    ((xmlRun fn st evs).dwError = st.dwError ∨
      (xmlRun fn st evs).dwError = ERROR_TDNF_INVALID_PARAMETER) :=
  xmlRun_after_error fn evs st h

/-- Witness for C2 (amended) with a latched error `7` and a subsequent
end-element plus character-data event. -/
theorem C2_witness :
    ({ dwError := 7 } : MetalinkElementInfo).dwError ≠ 0 ∧
    ((xmlRun "f" { dwError := 7 }
        [XmlEvent.endEl "a", XmlEvent.charData "z"]).ml_ctx =
      ({ dwError := 7 } : MetalinkElementInfo).ml_ctx ∧
      ((xmlRun "f" { dwError := 7 }
          [XmlEvent.endEl "a", XmlEvent.charData "z"]).dwError =
        ({ dwError := 7 } : MetalinkElementInfo).dwError ∨
       (xmlRun "f" { dwError := 7 }
          [XmlEvent.endEl "a", XmlEvent.charData "z"]).dwError =
        ERROR_TDNF_INVALID_PARAMETER)) :=
  ⟨by decide,
   C2_failed_state_frozen "f" { dwError := 7 }
     [XmlEvent.endEl "a", XmlEvent.charData "z"] (by decide)⟩

/-- C3: with two best-rank (`sha256`) declarations, the first one
valid-hex but mismatching the file and the second one valid-hex and
matching, verification succeeds with `0`, stopping at the matching
candidate: any further declarations of no higher rank are never
digest-checked (the result is `0` whatever they contain). -/
theorem C3_same_rank_fallback (oracle : DigestOracle)
    (rest : List TDNF_ML_HASH_INFO) (badVal goodVal : String) (d : List Nat)
    (hbad_hex : TDNFCheckHexDigest badVal 32 = true)
    (hgood_hex : TDNFCheckHexDigest goodVal 32 = true)
    (horacle : oracle 2 = Except.ok d)
    (hbad : memcmpEq 32 d (decodePairs badVal.data) = false)
    (hgood : memcmpEq 32 d (decodePairs goodVal.data) = true)
    (hrest : ∀ r ∈ rest, ∃ k, TDNFGetResourceType r.type = Except.ok k ∧ k ≤ 2) :
    TDNFCheckRepoMDFileHashFromMetalink oracle
      ({ type := "sha256", value := badVal } ::
       { type := "sha256", value := goodVal } :: rest) = 0 := by
  have hgrt : TDNFGetResourceType "sha256" = Except.ok 2 := by decide
  have hb1 : TDNFChecksumFromHexDigest badVal =
      Except.ok (decodePairs badVal.data) :=
    checksumFromHex_ok (checkHexDigest_ne_empty hbad_hex)
  have hb2 : TDNFChecksumFromHexDigest goodVal =
      Except.ok (decodePairs goodVal.data) :=
    checksumFromHex_ok (checkHexDigest_ne_empty hgood_hex)
  have hcheck_bad : TDNFCheckHash oracle (decodePairs badVal.data) 2 =
      ERROR_TDNF_CHECKSUM_VALIDATION_FAILED := by
    simp [TDNFCheckHash, TDNF_HASH_SENTINEL, hash_ops_length, horacle, hbad]
  have hcheck_good : TDNFCheckHash oracle (decodePairs goodVal.data) 2 = 0 := by
    simp [TDNFCheckHash, TDNF_HASH_SENTINEL, hash_ops_length, horacle, hgood]
  have hsel : selectBestHashType
      ({ type := "sha256", value := badVal } ::
       { type := "sha256", value := goodVal } :: rest) (-1) = Except.ok 2 := by
    simp [selectBestHashType, hgrt]
    exact selectBestHashType_const rest 2 hrest
  unfold TDNFCheckRepoMDFileHashFromMetalink
  rw [hsel]
  have hloop : checkHashLoop oracle 2
      ({ type := "sha256", value := badVal } ::
       { type := "sha256", value := goodVal } :: rest) 0 = 0 := by
    simp [checkHashLoop, hgrt, hash_ops_length, hbad_hex, hgood_hex,
      hb1, hb2, hcheck_bad, hcheck_good, ERROR_TDNF_CHECKSUM_VALIDATION_FAILED]
  simp [hloop]

/-- Witness for C3: zero digest mismatching, `0xaa...aa` matching. -/
theorem C3_witness :
    TDNFCheckHexDigest (String.mk (List.replicate 64 '0')) 32 = true ∧
    TDNFCheckHexDigest (String.mk (List.replicate 64 'a')) 32 = true ∧
    (fun t => if t = 2 then Except.ok (List.replicate 32 170)
              else Except.error ERROR_TDNF_CHECKSUM_VALIDATION_FAILED : DigestOracle) 2 =
      Except.ok (List.replicate 32 170) ∧
    memcmpEq 32 (List.replicate 32 170)
      (decodePairs (String.mk (List.replicate 64 '0')).data) = false ∧
    memcmpEq 32 (List.replicate 32 170)
      (decodePairs (String.mk (List.replicate 64 'a')).data) = true ∧
    TDNFCheckRepoMDFileHashFromMetalink
      (fun t => if t = 2 then Except.ok (List.replicate 32 170)
                else Except.error ERROR_TDNF_CHECKSUM_VALIDATION_FAILED)
      [{ type := "sha256", value := String.mk (List.replicate 64 '0') },
       { type := "sha256", value := String.mk (List.replicate 64 'a') }] = 0 :=
  ⟨by decide, by decide, by decide, by decide, by decide,
   C3_same_rank_fallback
     (fun t => if t = 2 then Except.ok (List.replicate 32 170)
               else Except.error ERROR_TDNF_CHECKSUM_VALIDATION_FAILED)
     [] (String.mk (List.replicate 64 '0')) (String.mk (List.replicate 64 'a'))
     (List.replicate 32 170) (by decide) (by decide) (by decide) (by decide)
     (by decide) (by simp)⟩

/-- C4: for every model in which no hash declaration's type resolves to
a supported rank — including the model with zero hash declarations —
verification fails with `ERROR_TDNF_INVALID_REPO_FILE`, and it does so
for every digest oracle, i.e. without touching the target file. -/
theorem C4_no_usable_hash (oracle : DigestOracle)
    (hashes : List TDNF_ML_HASH_INFO)
    (h : ∀ x ∈ hashes, TDNFGetResourceType x.type = Except.ok (-1)) :
    TDNFCheckRepoMDFileHashFromMetalink oracle hashes =
      ERROR_TDNF_INVALID_REPO_FILE := by
  unfold TDNFCheckRepoMDFileHashFromMetalink
  rw [selectBestHashType_const hashes (-1)
    (fun x hx => ⟨-1, h x hx, le_refl _⟩)]
  rfl

/-- Witness for C4 on the empty model and on a model with only an
unsupported `crc32` declaration. -/
theorem C4_witness :
    (∀ x ∈ ([] : List TDNF_ML_HASH_INFO),
        TDNFGetResourceType x.type = Except.ok (-1)) ∧
    TDNFCheckRepoMDFileHashFromMetalink (fun _ => Except.ok []) [] =
      ERROR_TDNF_INVALID_REPO_FILE ∧
    (∀ x ∈ [({ type := "crc32", value := "00" } : TDNF_ML_HASH_INFO)],
        TDNFGetResourceType x.type = Except.ok (-1)) ∧
    TDNFCheckRepoMDFileHashFromMetalink (fun _ => Except.ok [])
        [{ type := "crc32", value := "00" }] = ERROR_TDNF_INVALID_REPO_FILE :=
  ⟨by simp, C4_no_usable_hash (fun _ => Except.ok []) [] (by simp),
   by decide, C4_no_usable_hash (fun _ => Except.ok [])
     [{ type := "crc32", value := "00" }] (by decide)⟩

/-- C5: for every string `text` and every positive expected byte length
`n`, `TDNFCheckHexDigest text n` returns true if and only if every
character of `text` is an ASCII hex digit and the length of `text`
equals `2 * n`; in particular any string of the wrong length or with a
non-hex character is rejected. -/
theorem C5_check_hex_digest_iff (text : String) (n : Int) (h : 0 < n) :
    TDNFCheckHexDigest text n = true ↔
      ((∀ c ∈ text.data, isxdigit c = true) ∧ (text.length : Int) = 2 * n) := by
  unfold TDNFCheckHexDigest
  by_cases he : text = ""
  · subst he
    rw [if_pos (Or.inl rfl)]
    constructor
    · intro hcontra
      exact absurd hcontra (by decide)
    · rintro ⟨-, h2⟩
      have h0 : ("" : String).length = 0 := rfl
      rw [h0] at h2
      omega
  · rw [if_neg (by push_neg; exact ⟨he, by omega⟩)]
    simp only [Bool.and_eq_true, List.all_eq_true, beq_iff_eq]
    constructor
    · rintro ⟨h1, h2⟩
      exact ⟨h1, by omega⟩
    · rintro ⟨h1, h2⟩
      exact ⟨h1, by omega⟩

/-- Witness for C5 at `text = "00ff"`, `n = 2`. -/
theorem C5_witness :
    (0 : Int) < 2 ∧
      (TDNFCheckHexDigest "00ff" 2 = true ↔
        ((∀ c ∈ ("00ff" : String).data, isxdigit c = true) ∧
          ((("00ff" : String).length : Nat) : Int) = 2 * 2)) :=
  ⟨by decide, C5_check_hex_digest_iff "00ff" 2 (by decide)⟩

/-- C6: for every byte sequence of one of the four supported digest
lengths (16, 20, 32 or 64 bytes), `TDNFChecksumFromHexDigest` applied
to the hex encoding of that sequence yields the original sequence. -/
theorem C6_decode_encode_roundtrip (bytes : List Nat)
    (hb : ∀ b ∈ bytes, b < 256)
    (hlen : bytes.length = 16 ∨ bytes.length = 20 ∨
            bytes.length = 32 ∨ bytes.length = 64) :
    TDNFChecksumFromHexDigest (encodeHex bytes) = Except.ok bytes := by
  have hne : encodeHex bytes ≠ "" := by
    intro hcontra
    have h0 : encodeHexChars bytes = [] := congrArg String.data hcontra
    cases bytes with
    | nil => simp at hlen
    | cons b bs => simp [encodeHexChars] at h0
  unfold TDNFChecksumFromHexDigest
  rw [if_neg hne]
  have hdata : (encodeHex bytes).data = encodeHexChars bytes := rfl
  rw [hdata, decodePairs_encode bytes hb]

/-- Witness for C6 on the 16-byte sequence of `0xab` bytes. -/
theorem C6_witness :
    (∀ b ∈ List.replicate 16 171, b < 256) ∧
    ((List.replicate 16 171).length = 16 ∨ (List.replicate 16 171).length = 20 ∨
     (List.replicate 16 171).length = 32 ∨ (List.replicate 16 171).length = 64) ∧
    TDNFChecksumFromHexDigest (encodeHex (List.replicate 16 171)) =
      Except.ok (List.replicate 16 171) :=
  ⟨by decide, by decide,
   C6_decode_encode_roundtrip (List.replicate 16 171) (by decide) (by decide)⟩

/-- C9 counterexample: the empty string is a hash-type name not present
in the registry table, yet `TDNFGetResourceType` fails with
`ERROR_TDNF_INVALID_PARAMETER` instead of returning the unsupported
sentinel `-1` with success status. -/
theorem C9_counterexample :
    (∀ p ∈ hashType, p.1 ≠ "") ∧
    TDNFGetResourceType "" = Except.error ERROR_TDNF_INVALID_PARAMETER ∧
    TDNFGetResourceType "" ≠ Except.ok (-1) := by
  decide

/-- C9 (amended): for every nonempty hash-type name not present in the
registry table, `TDNFGetResourceType` returns the unsupported sentinel
`-1` with a success status; `TDNFParseHashTag` on a hash element
carrying such a type still succeeds, yielding the declaration that is
appended to the model; and that declaration is never selected as best
rank: wherever it stands, it contributes nothing to the selection pass,
and the verification loop skips it — no hex check, no digest
computation — whenever the selected best rank is a supported one. -/
theorem C9_amended (s : String) (hne : s ≠ "")
    (hns : ∀ p ∈ hashType, p.1 ≠ s)
    (attrs : List (String × String)) (val : String)
    (hattr : TDNFSearchTag attrs "type" = some s) :
    TDNFGetResourceType s = Except.ok (-1) ∧
    TDNFParseHashTag attrs val = Except.ok { type := s, value := val } ∧
    (∀ (v : String) (pre post : List TDNF_ML_HASH_INFO),
      selectBestHashType (pre ++ { type := s, value := v } :: post) (-1) =
        selectBestHashType (pre ++ post) (-1)) ∧
    (∀ (oracle : DigestOracle) (best : Int) (v : String)
        (rest : List TDNF_ML_HASH_INFO) (e : Nat), 0 ≤ best →
      checkHashLoop oracle best ({ type := s, value := v } :: rest) e =
        checkHashLoop oracle best rest 0) := by
  have hres : TDNFGetResourceType s = Except.ok (-1) := by
    unfold TDNFGetResourceType
    rw [if_neg hne]
    have hfind : hashType.find? (fun p => p.1 = s) = none := by
      rw [List.find?_eq_none]
      intro p hp
      simp [hns p hp]
    rw [hfind]
  refine ⟨hres, ?_, ?_, ?_⟩
  · unfold TDNFParseHashTag
    rw [hattr]
  · intro v pre post
    exact selectBestHashType_skip_unsupported pre
      { type := s, value := v } post (-1) hres (le_refl _)
  · intro oracle best v rest e hbest
    exact checkHashLoop_skip_unsupported oracle best
      { type := s, value := v } rest e hres hbest

/-- C7: for a url element carrying a preference attribute, preference
text parsing (via `sscanf "%d"`) to an integer in `[0, 100]` is
accepted, the value being stored in the declaration; an integer outside
`[0, 100]` is a parse error; and non-integer preference text is a parse
error. -/
theorem C7_url_preference (p val : String) (n : Int) :
    (sscanfInt p = some n → 0 ≤ n → n ≤ 100 →
      TDNFParseUrlTag [("preference", p)] val =
        Except.ok { protocol := none, type := none, location := none,
                    preference := n, url := some val }) ∧
    (sscanfInt p = some n → (n < 0 ∨ 100 < n) →
      TDNFParseUrlTag [("preference", p)] val =
        Except.error ERROR_TDNF_METALINK_PARSER_MISSING_URL_ATTR) ∧
    (sscanfInt p = none →
      TDNFParseUrlTag [("preference", p)] val =
        Except.error ERROR_TDNF_INVALID_PARAMETER) := by
  refine ⟨?_, ?_, ?_⟩
  · intro hp h0 h100
    have hnot : ¬(n < 0 ∨ 100 < n) := by omega
    unfold TDNFParseUrlTag processUrlAttrs
    rw [hp]
    simp [hnot, processUrlAttrs]
  · intro hp hout
    unfold TDNFParseUrlTag processUrlAttrs
    rw [hp]
    simp [hout]
  · intro hp
    unfold TDNFParseUrlTag processUrlAttrs
    rw [hp]
    simp

/-- Witness for C7 at preference texts `100`, `0`, `-1`, `101`, `abc`. -/
theorem C7_witness :
    (sscanfInt "100" = some 100 ∧
      TDNFParseUrlTag [("preference", "100")] "http://m" =
        Except.ok { protocol := none, type := none, location := none,
                    preference := 100, url := some "http://m" }) ∧
    (sscanfInt "0" = some 0 ∧
      TDNFParseUrlTag [("preference", "0")] "http://m0" =
        Except.ok { protocol := none, type := none, location := none,
                    preference := 0, url := some "http://m0" }) ∧
    (sscanfInt "-1" = some (-1) ∧
      TDNFParseUrlTag [("preference", "-1")] "http://m1" =
        Except.error ERROR_TDNF_METALINK_PARSER_MISSING_URL_ATTR) ∧
    (sscanfInt "101" = some 101 ∧
      TDNFParseUrlTag [("preference", "101")] "http://m2" =
        Except.error ERROR_TDNF_METALINK_PARSER_MISSING_URL_ATTR) ∧
    (sscanfInt "abc" = none ∧
      TDNFParseUrlTag [("preference", "abc")] "http://m3" =
        Except.error ERROR_TDNF_INVALID_PARAMETER) :=
  ⟨⟨by decide, (C7_url_preference "100" "http://m" 100).1 (by decide) (by decide) (by decide)⟩,
   ⟨by decide, (C7_url_preference "0" "http://m0" 0).1 (by decide) (by decide) (by decide)⟩,
   ⟨by decide, (C7_url_preference "-1" "http://m1" (-1)).2.1 (by decide) (by decide)⟩,
   ⟨by decide, (C7_url_preference "101" "http://m2" 101).2.1 (by decide) (by decide)⟩,
   ⟨by decide, (C7_url_preference "abc" "http://m3" 0).2.2 (by decide)⟩⟩

/-- C8: for a url element (no prior error, valid context), character
content of at most 4 bytes is silently ignored — the whole parse state,
in particular the url list and the error latch, is unchanged — while
content of 5 or more bytes is appended to the model as a new
`TDNF_ML_URL_INFO` whenever the attribute loop succeeds. -/
theorem C8_url_length_threshold (fn : String) (st : MetalinkElementInfo)
    (val : String) (hfn : fn ≠ "") (herr : st.dwError = 0)
    (hel : st.startElement = some "url") :
    (val.utf8ByteSize ≤ 4 → TDNFXmlParseData fn st val = st) ∧
    (∀ info, 5 ≤ val.utf8ByteSize →
      processUrlAttrs st.attributes {} = Except.ok info →
      TDNFXmlParseData fn st val =
        { st with ml_ctx := { st.ml_ctx with
            urls := st.ml_ctx.urls ++ [{ info with url := some val }] } }) := by
  have hguard : ¬(fn = "" ∨ st.dwError ≠ 0) := by
    push_neg
    exact ⟨hfn, herr⟩
  constructor
  · intro hle
    have hnotlen : ¬(MIN_URL_LENGTH < val.utf8ByteSize) := by
      unfold MIN_URL_LENGTH
      omega
    unfold TDNFXmlParseData
    rw [if_neg hguard, hel]
    simp [hnotlen]
  · intro info hge hattrs
    have hlen : MIN_URL_LENGTH < val.utf8ByteSize := by
      unfold MIN_URL_LENGTH
      omega
    unfold TDNFXmlParseData TDNFParseUrlTag
    rw [if_neg hguard, hel]
    simp [hlen, hattrs]

/-- Witness for C8 with an empty attribute list and contents `abcd`
(dropped) and `abcde` (retained). -/
theorem C8_witness :
    (("f" : String) ≠ "" ∧
      ("abcd" : String).utf8ByteSize ≤ 4 ∧
      TDNFXmlParseData "f"
        { startElement := some "url", attributes := [] } "abcd" =
        { startElement := some "url", attributes := [] }) ∧
    (5 ≤ ("abcde" : String).utf8ByteSize ∧
      processUrlAttrs ([] : List (String × String)) {} = Except.ok {} ∧
      TDNFXmlParseData "f"
        { startElement := some "url", attributes := [] } "abcde" =
        { startElement := some "url", attributes := [],
          ml_ctx := { urls := [{ url := some "abcde" }] } }) :=
  ⟨⟨by decide, by decide,
    (C8_url_length_threshold "f"
      { startElement := some "url", attributes := [] } "abcd"
      (by decide) rfl rfl).1 (by decide)⟩,
   ⟨by decide, by decide,
    (C8_url_length_threshold "f"
      { startElement := some "url", attributes := [] } "abcde"
      (by decide) rfl rfl).2 {} (by decide) (by decide)⟩⟩

/-- C10: whenever the hash-element or url-element handler reports an
error from a character-data event, the model — in particular its hash
and url lists — is exactly as it was before the event: the partially
built declaration is discarded, never appended. -/
theorem C10_tag_error_preserves_model (fn : String) (st : MetalinkElementInfo)
    (val : String) (hfn : fn ≠ "") (herr : st.dwError = 0)
    (hel : st.startElement = some "hash" ∨ st.startElement = some "url") :
    (TDNFXmlParseData fn st val).dwError ≠ 0 →
    (TDNFXmlParseData fn st val).ml_ctx = st.ml_ctx := by
  have hguard : ¬(fn = "" ∨ st.dwError ≠ 0) := by
    push_neg
    exact ⟨hfn, herr⟩
  intro hfail
  unfold TDNFXmlParseData at hfail ⊢
  rcases hel with hel | hel
  · rw [if_neg hguard, hel] at hfail ⊢
    cases htag : TDNFParseHashTag st.attributes val with
    | error e => simp [htag]
    | ok h =>
      simp [htag] at hfail
      exact absurd herr hfail
  · rw [if_neg hguard, hel] at hfail ⊢
    by_cases hlen : MIN_URL_LENGTH < val.utf8ByteSize
    · cases htag : TDNFParseUrlTag st.attributes val with
      | error e => simp [htag, hlen]
      | ok u =>
        simp [htag, hlen] at hfail
        exact absurd herr hfail
    · simp [hlen]

/-- Witness for C10: a hash element with no `type` attribute errors and
leaves the model untouched. -/
theorem C10_witness :
    ("f" : String) ≠ "" ∧
    ((TDNFXmlParseData "f"
        { startElement := some "hash", attributes := [] } "abc").dwError ≠ 0) ∧
    (TDNFXmlParseData "f"
        { startElement := some "hash", attributes := [] } "abc").ml_ctx =
      ({ startElement := some "hash", attributes := [] } :
        MetalinkElementInfo).ml_ctx :=
  ⟨by decide, by decide,
   C10_tag_error_preserves_model "f"
     { startElement := some "hash", attributes := [] } "abc"
     (by decide) rfl (Or.inl rfl) (by decide)⟩

/-- Witness for C9 (amended) at the unsupported name `crc32`: it
resolves to `-1` with success, parses fine, does not change the best
rank of an `md5`/`sha1` model it sits in, and is skipped by the
verification loop at best rank `1`. -/
theorem C9_witness :
    ("crc32" : String) ≠ "" ∧ (∀ p ∈ hashType, p.1 ≠ "crc32") ∧
    TDNFSearchTag [("type", "crc32")] "type" = some "crc32" ∧
    TDNFGetResourceType "crc32" = Except.ok (-1) ∧
    TDNFParseHashTag [("type", "crc32")] "deadbeef" =
      Except.ok { type := "crc32", value := "deadbeef" } ∧
    selectBestHashType
        [{ type := "md5", value := "aa" }, { type := "crc32", value := "00" },
         { type := "sha1", value := "bb" }] (-1) =
      selectBestHashType
        [{ type := "md5", value := "aa" }, { type := "sha1", value := "bb" }] (-1) ∧
    (0 : Int) ≤ 1 ∧
    checkHashLoop (fun _ => Except.ok []) 1
        [{ type := "crc32", value := "00" }] 5 =
      checkHashLoop (fun _ => Except.ok []) 1 [] 0 :=
  ⟨by decide, by decide, by decide,
   (C9_amended "crc32" (by decide) (by decide)
     [("type", "crc32")] "deadbeef" (by decide)).1,
   (C9_amended "crc32" (by decide) (by decide)
     [("type", "crc32")] "deadbeef" (by decide)).2.1,
   (C9_amended "crc32" (by decide) (by decide)
     [("type", "crc32")] "deadbeef" (by decide)).2.2.1 "00"
     [{ type := "md5", value := "aa" }] [{ type := "sha1", value := "bb" }],
   by decide,
   (C9_amended "crc32" (by decide) (by decide)
     [("type", "crc32")] "deadbeef" (by decide)).2.2.2
     (fun _ => Except.ok []) 1 "00" [] 5 (by decide)⟩

end Metalink
